import Mathlib

/-!
Shallow embedding of `sdgym/evaluators/evaluate.py` (SDGym evaluation engine).

Python floats are modelled as exact rationals `ℚ` wherever the data is finite;
where raw synthetic data may contain NaN or infinities (the batch loop of
`main`) values are modelled by `PyFloat`.  Quantities whose computation goes
through an exact square root (`np.std`, `np.sqrt`) live in `ℝ`.

External library functions (numpy's RNG shuffle, sklearn's `f1_score` and the
model objects' `fit`/`predict`, `GaussianMixture` scoring, pomegranate's
`BayesianNetwork.probability`) are not part of this repository; they enter the
embedding as explicit function parameters.  Raising a Python exception is
modelled by `Except.error` (or `Option.none` for partial library lookups).
-/

namespace SDGym

/-- Python `int(x)` on a float: truncation toward zero. -/
def pyInt (q : ℚ) : ℤ := if 0 ≤ q then ⌊q⌋ else ⌈q⌉

/-- Python list indexing `l[i]`, with negative indices counting from the end;
out-of-range indices raise (`none`). -/
def pyGetIdx {α : Type} (l : List α) (i : ℤ) : Option α :=
  let j : ℤ := if 0 ≤ i then i else i + l.length
  if 0 ≤ j ∧ j < l.length then l.get? j.toNat else none

/-- Python list assignment `l[i] = x`, with negative indices counting from the
end; out-of-range indices raise (`none`). -/
def pySetIdx {α : Type} (l : List α) (i : ℤ) (x : α) : Option (List α) :=
  let j : ℤ := if 0 ≤ i then i else i + l.length
  if 0 ≤ j ∧ j < l.length then some (l.set j.toNat x) else none

/-- Embeds `np.mean` over rationals: sum divided by length (the degenerate empty-list
case never arises in the theorems below). -/
def meanQ (xs : List ℚ) : ℚ := xs.sum / xs.length

/-- Population variance, the square of `np.std`, kept in `ℚ`. -/
def varQ (xs : List ℚ) : ℚ := meanQ (xs.map (fun x => (x - meanQ xs) ^ 2))

/-- Embeds `np.clip(x, lo, hi)`. -/
def pyClip (q lo hi : ℚ) : ℚ := max lo (min q hi)

/-- Embeds `np.unique`: sorted list of the distinct values. -/
def npUnique (l : List ℚ) : List ℚ :=
  l.dedup.insertionSort (fun a b => a ≤ b)

/-- sklearn `accuracy_score(y_true, y_pred)`: fraction of positions that
agree. -/
def accuracy_score (ytrue ypred : List ℚ) : ℚ :=
  (List.zipWith (fun a b => if a = b then (1 : ℚ) else 0) ytrue ypred).sum
    / ytrue.length

/-- sklearn `r2_score(y_true, y_pred)`: `1 - SS_res / SS_tot`. -/
def r2_score (ytrue ypred : List ℚ) : ℚ :=
  let m := meanQ ytrue
  1 - (List.zipWith (fun yt yp => (yt - yp) ^ 2) ytrue ypred).sum
      / (ytrue.map (fun yt => (yt - m) ^ 2)).sum

/-- Column semantic types (`CATEGORICAL`, `CONTINUOUS`, `ORDINAL` from
`sdgym.synthesizers.utils`). -/
inductive ColType : Type
  | categorical
  | continuous
  | ordinal
  deriving DecidableEq, Repr

/-- A Column Descriptor: the per-column metadata dictionary.  Python stores a
dict with type-dependent keys; here every field is present and the irrelevant
ones are simply unread, matching dictionary access patterns in the source. -/
structure ColInfo : Type where
  name : String
  type : ColType
  size : ℕ
  i2s : List String
  min : ℚ
  max : ℚ
  deriving DecidableEq, Repr

/-- A raw float as loaded from an `.npz` file: possibly NaN or infinite. -/
inductive PyFloat : Type
  | nan
  | inf
  | ninf
  | val (q : ℚ)
  deriving DecidableEq, Repr

/-- Embeds `np.isnan` on one value. -/
def PyFloat.isnan : PyFloat → Bool
  | .nan => true
  | _ => false

/-- Embeds `np.isfinite` on one value. -/
def PyFloat.isfinite : PyFloat → Bool
  | .val _ => true
  | _ => false

/-- Embeds `np.any(np.isnan(m))` for a matrix. -/
def anyNaN (m : List (List PyFloat)) : Bool :=
  m.any (fun r => r.any PyFloat.isnan)

end SDGym

namespace SDGym

/-! ## Feature Encoder (`make_features`) -/

/-- Parse the label cell per `label_type`: `'int'` truncates, `'float'` is the
identity, anything else hits `assert 0, 'unkown label type'`. -/
def parseLabel (label_type : String) (v : ℚ) : Except String ℚ :=
  if label_type = "int" then .ok ((pyInt v : ℤ) : ℚ)
  else if label_type = "float" then .ok v
  else .error "unkown label type"

/-- The loop body of `make_features` for one non-label column: the feature
cell(s) appended for value `v` under descriptor `c`.  `none` models an
`IndexError` from the one-hot assignment `tmp[int(col)] = 1`. -/
def cellFeature (log : ℚ → ℚ) (c : ColInfo) (v : ℚ) : Option (List ℚ) :=
  match c.type with
  | .continuous =>
      if 0 ≤ c.min ∧ 1000 ≤ c.max then some [log (max v (1 / 100))]
      else some [(v - c.min) / (c.max - c.min) * 5]
  | .ordinal => some [v]
  | .categorical =>
      if c.size ≤ 2 then some [v]
      else pySetIdx (List.replicate c.size (0 : ℚ)) (pyInt v) 1

/-- The per-row loop of `make_features`: walk `zip(row, meta)`, building the
feature list and the (last-assigned) label.  Python's `zip` truncates to the
shorter sequence, as does `List.zip`. -/
def processRow (log : ℚ → ℚ) (label_type : String) :
    List (ℚ × ColInfo) → Except String (List ℚ × Option ℚ)
  | [] => .ok ([], none)
  | (v, c) :: rest =>
      if c.name = "label" then do
        let lbl ← parseLabel label_type v
        let (f, l) ← processRow log label_type rest
        .ok (f, l.or (some lbl))
      else do
        let cell ← (cellFeature log c v).elim (.error "IndexError") .ok
        let (f, l) ← processRow log label_type rest
        .ok (cell ++ f, l)

/-- Embeds `make_features(data, meta, label_column, label_type, sample)`.  The numpy
shuffle of the copied array is the external `shuffle` parameter (the source
relies on the globally seeded `np.random`); `label_column` is accepted but,
exactly as in the source, never read (the body compares names against the
literal `'label'`). -/
def make_features (log : ℚ → ℚ) (shuffle : List (List ℚ) → List (List ℚ))
    (data : List (List ℚ)) (meta : List ColInfo)
    (_label_column : String) (label_type : String) (sample : ℕ) :
    Except String (List (List ℚ) × List (Option ℚ)) := do
  let d := (shuffle data).take sample
  let rows ← d.mapM (fun row => processRow log label_type (row.zip meta))
  .ok (rows.map Prod.fst, rows.map Prod.snd)

/-- State-passing form of `make_features`: the second component is the
caller's row collection after the call returns.  The source copies the input
(`data = data.copy()`) and shuffles only the copy in place, so the caller's
buffer is handed back untouched. -/
def make_features_st (log : ℚ → ℚ) (shuffle : List (List ℚ) → List (List ℚ))
    (data : List (List ℚ)) (meta : List ColInfo)
    (label_column : String) (label_type : String) (sample : ℕ) :
    Except String (List (List ℚ) × List (Option ℚ)) × List (List ℚ) :=
  let copied := data
  (make_features log shuffle copied meta label_column label_type sample, data)

/-! ## Model batteries (`DATASET_MODELS_MAP`, `get_models`) -/

/-- The sklearn estimator objects appearing in `DATASET_MODELS_MAP`, as data:
each constructor records the constructor call and its non-default numeric
parameters. -/
inductive Model : Type
  | decisionTree (max_depth : ℕ)
  | adaBoost
  | logisticRegression (max_iter : ℕ)
  | mlpClassifier (hidden : ℕ) (max_iter : ℕ)
  | linearRegression
  | mlpRegressor (hidden : ℕ) (max_iter : ℕ)
  deriving DecidableEq, Repr

/-- Python `dict.get` on an association list. -/
def pyDictGet {α : Type} (m : List (String × α)) (k : String) : Option α :=
  (m.find? (fun e => e.1 = k)).map Prod.snd

/-- The table `DATASET_MODELS_MAP`. -/
def DATASET_MODELS_MAP : List (String × List (Model × String)) :=
  [ ("mnist12",
      [ (.decisionTree 30, "Decision Tree (max_depth=30)"),
        (.logisticRegression 50, "Logistic Regression"),
        (.mlpClassifier 100 50, "MLP (100)") ]),
    ("mnist28",
      [ (.decisionTree 30, "Decision Tree (max_depth=30)"),
        (.logisticRegression 50, "Logistic Regression"),
        (.mlpClassifier 100 50, "MLP (100)") ]),
    ("adult",
      [ (.decisionTree 15, "Decision Tree (max_depth=20)"),
        (.adaBoost, "Adaboost (estimator=50)"),
        (.logisticRegression 50, "Logistic Regression"),
        (.mlpClassifier 50 50, "MLP (50)") ]),
    ("census",
      [ (.decisionTree 30, "Decision Tree (max_depth=30)"),
        (.adaBoost, "Adaboost (estimator=50)"),
        (.mlpClassifier 100 50, "MLP (100)") ]),
    ("credit",
      [ (.decisionTree 30, "Decision Tree (max_depth=30)"),
        (.adaBoost, "Adaboost (estimator=50)"),
        (.mlpClassifier 100 50, "MLP (100)") ]),
    ("intrusion",
      [ (.decisionTree 30, "Decision Tree (max_depth=30)"),
        (.mlpClassifier 100 50, "MLP (100)") ]),
    ("covtype",
      [ (.decisionTree 30, "Decision Tree (max_depth=30)"),
        (.mlpClassifier 100 50, "MLP (100)") ]),
    ("news",
      [ (.linearRegression, "Linear Regression"),
        (.mlpRegressor 100 50, "MLP (100)") ]) ]

/-- Embeds `get_models`: look the battery up, return it if truthy (non-empty),
otherwise raise `ValueError` — which a `None` result also does. -/
def get_models (dataset : String) : Except String (List (Model × String)) :=
  match pyDictGet DATASET_MODELS_MAP dataset with
  | some models =>
      if models.isEmpty then
        .error ("Could not find models for dataset " ++ dataset)
      else .ok models
  | none => .error ("Could not find models for dataset " ++ dataset)

/-! ## Utility evaluators -/

/-- A fitted-and-applied estimator: `fit(x_train, y_train)` then
`predict(x_test)` fused into one external function. -/
def Clf : Type := List (List ℚ) → List ℚ → List (List ℚ) → List ℚ

/-- One per-model score record; four shapes matching the four dictionaries
built by the evaluator functions. -/
inductive PerfRec : Type
  | multiClass (name : String) (accuracy macro_f1 micro_f1 : ℚ)
  | binClass (name : String) (accuracy f1 : ℚ)
  | regression (name : String) (r2 : ℚ)
  | likelihood (name : String) (syn_likelihood test_likelihood : ℚ)
  deriving DecidableEq, Repr

/-- Embeds `default_multi_classification`: per classifier, if the training labels
have a single distinct value predict that constant for every test row without
fitting, else fit and predict; score with accuracy and macro/micro F1
(`f1` is sklearn's `f1_score`, an external parameter). -/
def default_multi_classification (f1 : List ℚ → List ℚ → String → ℚ)
    (x_train : List (List ℚ)) (y_train : List ℚ)
    (x_test : List (List ℚ)) (y_test : List ℚ)
    (classifiers : List (Clf × String)) : List PerfRec :=
  classifiers.map (fun cn =>
    let unique_labels := npUnique y_train
    let pred :=
      if unique_labels.length = 1 then
        List.replicate x_test.length (unique_labels.headD 0)
      else cn.1 x_train y_train x_test
    .multiClass cn.2 (accuracy_score y_test pred)
      (f1 y_test pred "macro") (f1 y_test pred "micro"))

/-- Embeds `default_binary_classification`: same guard, scored with accuracy and
binary F1. -/
def default_binary_classification (f1 : List ℚ → List ℚ → String → ℚ)
    (x_train : List (List ℚ)) (y_train : List ℚ)
    (x_test : List (List ℚ)) (y_test : List ℚ)
    (classifiers : List (Clf × String)) : List PerfRec :=
  classifiers.map (fun cn =>
    let unique_labels := npUnique y_train
    let pred :=
      if unique_labels.length = 1 then
        List.replicate x_test.length (unique_labels.headD 0)
      else cn.1 x_train y_train x_test
    .binClass cn.2 (accuracy_score y_test pred) (f1 y_test pred "binary"))

/-- Embeds `news_regression`: log-clamp both label vectors to `[1, 20000]`, then fit
and score every regressor with R² — with no single-valued-label guard. -/
def news_regression (log : ℚ → ℚ)
    (x_train : List (List ℚ)) (y_train : List ℚ)
    (x_test : List (List ℚ)) (y_test : List ℚ)
    (regressors : List (Clf × String)) : List PerfRec :=
  let y_train' := y_train.map (fun y => log (pyClip y 1 20000))
  let y_test' := y_test.map (fun y => log (pyClip y 1 20000))
  regressors.map (fun cn =>
    let pred := cn.1 x_train y_train' x_test
    .regression cn.2 (r2_score y_test' pred))

/-! ## Density evaluators -/

/-- Embeds `default_gmm_likelihood`: here `gmmFitScore n fitdata scoredata` stands for
`GaussianMixture(n, covariance_type='diag').fit(fitdata).score(scoredata)`,
an external sklearn computation. -/
def default_gmm_likelihood (gmmFitScore : ℕ → List (List ℚ) → List (List ℚ) → ℚ)
    (trainset testset : List (List ℚ)) (n : ℕ) : List PerfRec :=
  let l1 := gmmFitScore n testset trainset
  let l2 := gmmFitScore n trainset testset
  [.likelihood "default" l1 l2]

/-- Embeds `mapper(data, meta)`: decode every row's encoded integers back to the
categorical labels through each column's `i2s` (Python list indexing, so
negative codes index from the end); an out-of-range access raises (`none`). -/
def mapper (data : List (List ℚ)) (meta : List ColInfo) :
    Option (List (List String)) :=
  data.mapM (fun row =>
    (List.range meta.length).mapM (fun id_ => do
      let info ← meta.get? id_
      let v ← row.get? id_
      pyGetIdx info.i2s (pyInt v)))

/-- The external pieces of `default_bayesian_likelihood`:
`structFiles d` is how many `data/*/d_structure.json` files the glob finds,
`bnProb d item` is `BayesianNetwork.from_json(struct).probability(item)` with
`none` for a raised exception, and `bnFit d rows item` the same for the
network refit from `rows` with `from_structure`. -/
structure BayesEnv : Type where
  structFiles : String → ℕ
  bnProb : String → List String → Option ℚ
  bnFit : String → List (List String) → List String → Option ℚ

/-- Embeds `default_bayesian_likelihood`: map both sets through `i2s` decoding, take
each row's probability under the reference network (floor `1e-8` when the
lookup raises), and return the mean of `log(probability + 1e-8)`; same again
under the network refit on the mapped trainset. -/
def default_bayesian_likelihood (log : ℚ → ℚ) (env : BayesEnv)
    (dataset : String) (trainset testset : List (List ℚ))
    (meta : List ColInfo) : Except String (List PerfRec) :=
  if env.structFiles dataset = 1 then
    match mapper trainset meta, mapper testset meta with
    | some trainset_mapped, some testset_mapped =>
        let prob1 := trainset_mapped.map
          (fun item => ((env.bnProb dataset item).getD (1 / 100000000)))
        let l1 := meanQ (prob1.map (fun p => log (p + 1 / 100000000)))
        let prob2 := testset_mapped.map
          (fun item =>
            ((env.bnFit dataset trainset_mapped item).getD (1 / 100000000)))
        let l2 := meanQ (prob2.map (fun p => log (p + 1 / 100000000)))
        .ok [.likelihood "default" l1 l2]
    | _, _ => .error "IndexError"
  else .error "AssertionError"

/-! ## Evaluation Dispatcher (`evalute_dataset`) -/

/-- The table `BAYESIAN_PARAMETER`. -/
def BAYESIAN_PARAMETER : List (String × ℕ) :=
  [("grid", 30), ("gridr", 30), ("ring", 10)]

/-- The evaluator functions stored as values of `DATASET_EVALUATOR_MAP`. -/
inductive EvaluatorKind : Type
  | multiClassification
  | binaryClassification
  | newsRegression
  | gmmLikelihood
  | bayesianLikelihood
  deriving DecidableEq, Repr

/-- The table `DATASET_EVALUATOR_MAP`. -/
def DATASET_EVALUATOR_MAP : List (String × EvaluatorKind) :=
  [ ("mnist12", .multiClassification),
    ("mnist28", .multiClassification),
    ("covtype", .multiClassification),
    ("intrusion", .multiClassification),
    ("credit", .binaryClassification),
    ("census", .binaryClassification),
    ("adult", .binaryClassification),
    ("news", .newsRegression),
    ("grid", .gmmLikelihood),
    ("gridr", .gmmLikelihood),
    ("ring", .gmmLikelihood),
    ("asia", .bayesianLikelihood),
    ("alarm", .bayesianLikelihood),
    ("child", .bayesianLikelihood),
    ("insurance", .bayesianLikelihood) ]

/-- Every external function the dispatcher's callees depend on. -/
structure Externals : Type where
  log : ℚ → ℚ
  shuffle : List (List ℚ) → List (List ℚ)
  f1 : List ℚ → List ℚ → String → ℚ
  predict : Model → Clf
  gmmFitScore : ℕ → List (List ℚ) → List (List ℚ) → ℚ
  bayes : BayesEnv

/-- Apply the looked-up evaluator with the utility-branch argument shape
`evaluator(x_train, y_train, x_test, y_test, get_models(dataset))`; a
non-utility function here would be a Python `TypeError`. -/
def runUtilityEvaluator (ext : Externals) (kind : EvaluatorKind)
    (x_train : List (List ℚ)) (y_train : List ℚ)
    (x_test : List (List ℚ)) (y_test : List ℚ)
    (models : List (Model × String)) : Except String (List PerfRec) :=
  let classifiers := models.map (fun mn => (ext.predict mn.1, mn.2))
  match kind with
  | .multiClassification =>
      .ok (default_multi_classification ext.f1 x_train y_train x_test y_test
        classifiers)
  | .binaryClassification =>
      .ok (default_binary_classification ext.f1 x_train y_train x_test y_test
        classifiers)
  | .newsRegression =>
      .ok (news_regression ext.log x_train y_train x_test y_test classifiers)
  | _ => .error "TypeError"

/-- The utility evaluators receive the label list produced by
`make_features`; a `None` label inside it would fault downstream in numpy, so
extracting it re-raises there. -/
def requireLabels (labels : List (Option ℚ)) : Except String (List ℚ) :=
  (labels.mapM id).elim (.error "TypeError") .ok

/-- Embeds `evalute_dataset(dataset, trainset, testset, meta)` (sic).  Returns the
warnings logged plus the optional performance list; `Except.error` models an
uncaught exception. -/
def evalute_dataset (ext : Externals) (dataset : String)
    (trainset testset : List (List ℚ)) (meta : List ColInfo) :
    Except String (List String × Option (List PerfRec)) :=
  match pyDictGet DATASET_EVALUATOR_MAP dataset with
  | none => .ok ([dataset ++ " evaluation not defined."], none)
  | some evaluator =>
      if dataset ∈ ["asia", "alarm", "child", "insurance"] then
        match evaluator with
        | .bayesianLikelihood => do
            let perf ← default_bayesian_likelihood ext.log ext.bayes dataset
              trainset testset meta
            .ok ([], some perf)
        | _ => .error "TypeError"
      else if dataset ∈ ["mnist12", "mnist28", "covtype", "intrusion",
          "credit", "census", "adult", "news"] then do
        let (x_train, y_train') ←
          make_features ext.log ext.shuffle trainset meta "label" "int" 50000
        let (x_test, y_test') ←
          make_features ext.log ext.shuffle testset meta "label" "int" 50000
        let y_train ← requireLabels y_train'
        let y_test ← requireLabels y_test'
        let models ← get_models dataset
        let perf ← runUtilityEvaluator ext evaluator x_train y_train x_test
          y_test models
        .ok ([], some perf)
      else
        match pyDictGet BAYESIAN_PARAMETER dataset with
        | some n =>
            match evaluator with
            | .gmmLikelihood =>
                .ok ([], some (default_gmm_likelihood ext.gmmFitScore trainset
                  testset n))
            | _ => .error "TypeError"
        | none => .ok ([], none)

/-! ## Novelty/Distance Evaluator (`compute_distance`) -/

/-- The `mask_d` vector: 1 for categorical/ordinal columns, 0 otherwise. -/
def mask_d (meta : List ColInfo) : List ℚ :=
  meta.map (fun info =>
    if info.type = .categorical ∨ info.type = .ordinal then (1 : ℚ) else 0)

/-- Column `j` of a row-major matrix (shapes are assumed consistent by the
numpy calls; the theorems carry the width hypotheses explicitly). -/
def matColumn (m : List (List ℚ)) (j : ℕ) : List ℚ :=
  m.map (fun r => r.getD j 0)

/-- Embeds `np.std(trainset, axis=0) + 1e-6`: per-column population standard
deviation plus the epsilon. -/
noncomputable def stdPlusEps (trainset : List (List ℚ)) : List ℝ :=
  (List.range (trainset.headD []).length).map
    (fun j => Real.sqrt ((varQ (matColumn trainset j) : ℚ) : ℝ) + 1 / 1000000)

/-- One row's discrete component: `np.sum((treal - current) * mask_d > 0)`. -/
def dCompRow (maskd : List ℚ) (diff : List ℚ) : ℕ :=
  (List.zipWith (fun d m => if 0 < d * m then (1 : ℕ) else 0) diff maskd).sum

/-- One row's continuous component:
`np.sum(((treal - current) * (1 - mask_d) / 2 / std) ** 2)`. -/
noncomputable def cCompRow (maskd : List ℚ) (std : List ℝ) (diff : List ℚ) : ℝ :=
  (List.zipWith (fun (x : ℚ) (s : ℝ) => (((x : ℝ)) / 2 / s) ^ 2)
    (List.zipWith (fun d m => d * (1 - m)) diff maskd) std).sum

/-- Embeds `np.min` over a nonempty list of reals (empty input raises in numpy; the
`headD` seed only matters for nonempty lists, where it is redundant). -/
noncomputable def listMinR (l : List ℝ) : ℝ := l.foldr min (l.headD 0)

/-- Embeds `np.mean` over reals. -/
noncomputable def meanR (l : List ℝ) : ℝ := l.sum / l.length

/-- The combined distance of one synthetic row `current` to one real row. -/
noncomputable def rowTotal (maskd : List ℚ) (std : List ℝ)
    (treal current : List ℚ) : ℝ :=
  cCompRow maskd std (List.zipWith (fun a b => a - b) treal current)
    + (dCompRow maskd (List.zipWith (fun a b => a - b) treal current) : ℝ)

/-- Embeds `compute_distance(trainset, syn, meta, sample)`: for each of the first
`sample` synthetic rows (indexing `syn[i]` raises when `syn` is shorter, and
`np.min` raises on an empty trainset — both are `none`), take
`sqrt(min(distance_c + distance_d))` over all real rows and return the mean. -/
noncomputable def compute_distance (trainset syn : List (List ℚ))
    (meta : List ColInfo) (sample : ℕ) : Option ℝ :=
  if sample ≤ syn.length ∧ trainset ≠ [] then
    let maskd := mask_d meta
    let std := stdPlusEps trainset
    let dis_all := (List.range sample).map (fun i =>
      Real.sqrt (listMinR (trainset.map
        (fun treal => rowTotal maskd std treal (syn.getD i [])))))
    some (meanR dis_all)
  else none

/-! ## Batch loop of `main` -/

/-- One parsed synthetic `.npz` file: `dataset_iter_step.npz` plus its `syn`
matrix of raw floats. -/
structure SynFile : Type where
  dataset : String
  iter : ℤ
  step : ℤ
  syn : List (List PyFloat)

/-- The `data/*/<dataset>.npz` and `data/*/<dataset>.json` lookups of the
batch loop: `none` models a glob that does not find exactly one file. -/
structure DataEnv : Type where
  arrays : String → Option (List (List PyFloat) × List (List PyFloat))
  meta : String → Option (List ColInfo)

/-- One appended Evaluation Result record, generic in the payloads the two
evaluator calls produce. -/
structure ResultRec (Perf Dist : Type) : Type where
  dataset : String
  iter : ℤ
  step : ℤ
  performance : Perf
  distance : Dist

/-- The per-file loop of `main`: skip a file whose `syn` matrix contains any
NaN (`np.any(np.isnan(syn))`), skip a file whose dataset arrays or metadata
are not found, and otherwise append one result built from `evalute_dataset`
(`eval`) and `compute_distance` (`dist`), both taken as parameters of the
loop. -/
def mainLoop {Perf Dist : Type} (env : DataEnv)
    (eval : String → List (List PyFloat) → List (List PyFloat) →
      List ColInfo → Perf)
    (dist : List (List PyFloat) → List (List PyFloat) → List ColInfo → Dist) :
    List SynFile → List (ResultRec Perf Dist)
  | [] => []
  | f :: fs =>
      if anyNaN f.syn then mainLoop env eval dist fs
      else
        match env.arrays f.dataset, env.meta f.dataset with
        | some (data_train, data_test), some meta =>
            { dataset := f.dataset, iter := f.iter, step := f.step,
              performance := eval f.dataset f.syn data_test meta,
              distance := dist data_train f.syn meta }
              :: mainLoop env eval dist fs
        | _, _ => mainLoop env eval dist fs

/-! ## Statement-side distance formulas -/

/-- The distance formula as the claim words it: mean over the sampled
synthetic rows of the nearest-real-row `sqrt(D + C)`, with `D` the count of
categorical/ordinal columns where `real - synthetic > 0` and `C` the sum over
continuous columns of the squared per-column-std-normalized difference
`(real - synthetic) / std`. -/
noncomputable def distance_claimed (trainset syn : List (List ℚ))
    (meta : List ColInfo) (sample : ℕ) : ℝ :=
  meanR ((List.range sample).map (fun i =>
    listMinR (trainset.map (fun treal =>
      Real.sqrt (
        (((meta.zip (List.zipWith (fun a b => a - b) treal (syn.getD i []))).filter
            (fun p => (p.1.type = ColType.categorical ∨ p.1.type = ColType.ordinal)
              ∧ 0 < p.2)).length : ℝ)
        + (List.zipWith
            (fun (p : ColInfo × ℚ) (s : ℝ) =>
              if p.1.type = ColType.continuous then ((p.2 : ℝ) / s) ^ 2 else 0)
            (meta.zip (List.zipWith (fun a b => a - b) treal (syn.getD i [])))
            ((List.range meta.length).map (fun j =>
              Real.sqrt ((varQ (matColumn trainset j) : ℚ) : ℝ)))).sum)))))

/-- The amended distance formula: as `distance_claimed`, except that the
continuous normalizer is `2 * (std + 1e-6)` — the difference is divided by
twice the per-column population standard deviation plus the `1e-6` epsilon,
as the source does. -/
noncomputable def distance_amended (trainset syn : List (List ℚ))
    (meta : List ColInfo) (sample : ℕ) : ℝ :=
  meanR ((List.range sample).map (fun i =>
    listMinR (trainset.map (fun treal =>
      Real.sqrt (
        (((meta.zip (List.zipWith (fun a b => a - b) treal (syn.getD i []))).filter
            (fun p => (p.1.type = ColType.categorical ∨ p.1.type = ColType.ordinal)
              ∧ 0 < p.2)).length : ℝ)
        + (List.zipWith
            (fun (p : ColInfo × ℚ) (s : ℝ) =>
              if p.1.type = ColType.continuous then ((p.2 : ℝ) / (2 * s)) ^ 2 else 0)
            (meta.zip (List.zipWith (fun a b => a - b) treal (syn.getD i [])))
            ((List.range meta.length).map (fun j =>
              Real.sqrt ((varQ (matColumn trainset j) : ℚ) : ℝ) + 1 / 1000000))).sum)))))

end SDGym

namespace SDGym

/-! # Theorems -/

/-- C2: for every continuous column descriptor and every input value `v`, the
Feature Encoder emits `log(max(v, 1e-2))` when the descriptor has `min ≥ 0`
and `max ≥ 1000`, and otherwise `(v - min) / (max - min) * 5`. -/
theorem C2_continuous_encoding (log : ℚ → ℚ) (label_type : String)
    (c : ColInfo) (v : ℚ) (hname : c.name ≠ "label")
    (htype : c.type = ColType.continuous) :
    processRow log label_type [(v, c)] =
      .ok ((if 0 ≤ c.min ∧ 1000 ≤ c.max then [log (max v (1 / 100))]
            else [(v - c.min) / (c.max - c.min) * 5]), none) := by
  simp only [processRow, if_neg hname, cellFeature, htype]
  split <;> rfl

/-- C2 witness: a concrete continuous column in each branch. -/
theorem C2_continuous_encoding_witness :
    (ColInfo.mk "a" ColType.continuous 0 [] 0 2000).name ≠ "label" ∧
    processRow (fun q => q + 100) "int"
        [((7 : ℚ), ColInfo.mk "a" ColType.continuous 0 [] 0 2000)] =
      .ok ([(7 : ℚ) + 100], none) ∧
    processRow (fun q => q + 100) "int"
        [((7 : ℚ), ColInfo.mk "b" ColType.continuous 0 [] 0 10)] =
      .ok ([(7 - 0) / (10 - 0) * 5], none) := by
  refine ⟨by decide, ?_, ?_⟩
  · rw [C2_continuous_encoding (fun q => q + 100) "int"
      (ColInfo.mk "a" ColType.continuous 0 [] 0 2000) 7 (by decide) rfl]
    norm_num
  · rw [C2_continuous_encoding (fun q => q + 100) "int"
      (ColInfo.mk "b" ColType.continuous 0 [] 0 10) 7 (by decide) rfl]
    norm_num

/-- C7: a label-type tag other than `int`/`float` raises at the label column;
`int` truncates the label to an integer, `float` keeps it, and in both cases
the label column contributes nothing to the feature vector. -/
theorem C7_label_type (log : ℚ → ℚ) (label_type : String) (c : ColInfo)
    (v : ℚ) (hname : c.name = "label") :
    (label_type = "int" →
      processRow log label_type [(v, c)] = .ok ([], some ((pyInt v : ℤ) : ℚ)))
    ∧ (label_type = "float" →
      processRow log label_type [(v, c)] = .ok ([], some v))
    ∧ (label_type ≠ "int" → label_type ≠ "float" →
      processRow log label_type [(v, c)] = .error "unkown label type") := by
  refine ⟨?_, ?_, ?_⟩
  · intro h
    simp only [processRow, hname, if_pos rfl, parseLabel, h, if_true]
    rfl
  · intro h
    subst h
    simp only [processRow, hname, if_pos rfl, parseLabel,
      show ("float" = "int") = False by simp, if_false, if_true]
    rfl
  · intro h1 h2
    simp only [processRow, hname, if_pos rfl, parseLabel, h1, h2, if_neg h1,
      if_neg h2]
    rfl

/-- C7 witness: all three behaviors at concrete inputs. -/
theorem C7_label_type_witness :
    processRow id "int" [((7 : ℚ) / 2, ColInfo.mk "label" ColType.continuous 0 [] 0 1)] =
      .ok ([], some (3 : ℚ))
    ∧ processRow id "float" [((7 : ℚ) / 2, ColInfo.mk "label" ColType.continuous 0 [] 0 1)] =
      .ok ([], some ((7 : ℚ) / 2))
    ∧ processRow id "str" [((7 : ℚ) / 2, ColInfo.mk "label" ColType.continuous 0 [] 0 1)] =
      .error "unkown label type" := by
  refine ⟨?_, ?_, ?_⟩
  · rw [(C7_label_type id "int" (ColInfo.mk "label" ColType.continuous 0 [] 0 1)
      ((7 : ℚ) / 2) rfl).1 rfl]
    norm_num [pyInt]
  · exact (C7_label_type id "float" (ColInfo.mk "label" ColType.continuous 0 [] 0 1)
      ((7 : ℚ) / 2) rfl).2.1 rfl
  · exact (C7_label_type id "str" (ColInfo.mk "label" ColType.continuous 0 [] 0 1)
      ((7 : ℚ) / 2) rfl).2.2 (by decide) (by decide)

/-- C10: the Feature Encoder hands the caller's row collection back exactly
as it received it — the shuffle and truncation act on a copy. -/
theorem C10_caller_rows_unchanged (log : ℚ → ℚ)
    (shuffle : List (List ℚ) → List (List ℚ)) (data : List (List ℚ))
    (meta : List ColInfo) (label_column label_type : String) (sample : ℕ) :
    (make_features_st log shuffle data meta label_column label_type sample).2
      = data := rfl

/-- C8: an unmapped dataset id makes the battery lookup raise, and every
mapped id gets its own battery back. -/
theorem C8_get_models_dispatch :
    (∀ d, pyDictGet DATASET_MODELS_MAP d = none →
      get_models d = .error ("Could not find models for dataset " ++ d))
    ∧ (∀ d ms, (d, ms) ∈ DATASET_MODELS_MAP → get_models d = .ok ms) := by
  constructor
  · intro d h
    simp [get_models, h]
  · intro d ms h
    fin_cases h <;> rfl

/-- C8 witness: an unknown id raises, a known id returns its battery. -/
theorem C8_get_models_dispatch_witness :
    get_models "titanic" =
      .error ("Could not find models for dataset " ++ "titanic")
    ∧ get_models "news" =
      .ok [(.linearRegression, "Linear Regression"),
           (.mlpRegressor 100 50, "MLP (100)")] := by
  exact ⟨C8_get_models_dispatch.1 "titanic" (by rfl),
    C8_get_models_dispatch.2 "news"
      [(.linearRegression, "Linear Regression"),
       (.mlpRegressor 100 50, "MLP (100)")] (by decide)⟩

/-- C3: a dataset id absent from the evaluator mapping makes the dispatcher
log a warning and return no performance record, without raising. -/
theorem C3_unknown_dataset_id (ext : Externals) (dataset : String)
    (trainset testset : List (List ℚ)) (meta : List ColInfo)
    (h : pyDictGet DATASET_EVALUATOR_MAP dataset = none) :
    evalute_dataset ext dataset trainset testset meta =
      .ok ([dataset ++ " evaluation not defined."], none) := by
  simp [evalute_dataset, h]

/-- C3 witness: the concrete unknown id `"titanic"` under concrete external
functions. -/
theorem C3_unknown_dataset_id_witness :
    evalute_dataset
      ⟨id, id, fun _ _ _ => 0, fun _ => fun _ _ _ => [],
        fun _ _ _ => 0, ⟨fun _ => 1, fun _ _ => none, fun _ _ _ => none⟩⟩
      "titanic" [[1]] [[2]] [] =
      .ok (["titanic evaluation not defined."], none) :=
  C3_unknown_dataset_id _ "titanic" [[1]] [[2]] [] (by rfl)

/-- C9: in the Bayesian-network strategy every failed per-row probability
lookup contributes the floor `1e-8`, and each likelihood is the mean over the
rows of `log(probability + 1e-8)`. -/
theorem C9_bayesian_floor (log : ℚ → ℚ) (env : BayesEnv) (dataset : String)
    (trainset testset : List (List ℚ)) (meta : List ColInfo)
    (tm em : List (List String))
    (hstruct : env.structFiles dataset = 1)
    (htr : mapper trainset meta = some tm)
    (hte : mapper testset meta = some em) :
    default_bayesian_likelihood log env dataset trainset testset meta =
      .ok [.likelihood "default"
        (meanQ (tm.map (fun item =>
          log ((match env.bnProb dataset item with
                | some p => p
                | none => 1 / 100000000) + 1 / 100000000))))
        (meanQ (em.map (fun item =>
          log ((match env.bnFit dataset tm item with
                | some p => p
                | none => 1 / 100000000) + 1 / 100000000))))] := by
  unfold default_bayesian_likelihood
  rw [if_pos hstruct, htr, hte]
  have h1 : List.map (fun p => log (p + 1 / 100000000))
      (List.map (fun item => (env.bnProb dataset item).getD (1 / 100000000)) tm)
      = List.map (fun item => log ((match env.bnProb dataset item with
          | some p => p
          | none => 1 / 100000000) + 1 / 100000000)) tm := by
    rw [List.map_map]
    refine List.map_congr_left (fun item _ => ?_)
    cases h : env.bnProb dataset item <;> simp [h, Function.comp]
  have h2 : List.map (fun p => log (p + 1 / 100000000))
      (List.map (fun item => (env.bnFit dataset tm item).getD (1 / 100000000)) em)
      = List.map (fun item => log ((match env.bnFit dataset tm item with
          | some p => p
          | none => 1 / 100000000) + 1 / 100000000)) em := by
    rw [List.map_map]
    refine List.map_congr_left (fun item _ => ?_)
    cases h : env.bnFit dataset tm item <;> simp [h, Function.comp]
  show Except.ok [PerfRec.likelihood "default"
      (meanQ (List.map (fun p => log (p + 1 / 100000000))
        (List.map (fun item => (env.bnProb dataset item).getD (1 / 100000000)) tm)))
      (meanQ (List.map (fun p => log (p + 1 / 100000000))
        (List.map (fun item => (env.bnFit dataset tm item).getD (1 / 100000000)) em)))]
    = _
  rw [h1, h2]

/-- C6 counterexample: `news_regression` with single-valued training labels
(`[5, 5]`, one distinct value) does not predict the constant — its score is
computed from the fitted model's predictions, so it differs from the score of
the constant prediction `[5, 5]`. -/
theorem C6_counterexample :
    (npUnique [(5 : ℚ), 5]).length = 1 ∧
    news_regression id [[1], [2]] [(5 : ℚ), 5] [[3], [4]] [2, 4]
        [(fun _ _ x_test => List.replicate x_test.length 99, "m")] ≠
      [PerfRec.regression "m" (r2_score [2, 4] (List.replicate 2 (5 : ℚ)))] := by
  constructor
  · decide
  · simp only [news_regression, r2_score, meanQ, pyClip, List.map_cons,
      List.map_nil, id_eq, List.zipWith_cons_cons, List.zipWith_nil_right,
      List.length_cons, List.length_nil, List.replicate, ne_eq,
      List.cons.injEq, and_true, PerfRec.regression.injEq, not_and]
    intro _
    norm_num

/-- C6 (amended): the single-valued-label guard holds for the classification
evaluators — both skip fitting and predict the constant label for every test
row, independently of the classifier — while `news_regression` fits
regardless (see the counterexample). -/
theorem C6_classification_constant_label
    (f1 : List ℚ → List ℚ → String → ℚ)
    (x_train x_test : List (List ℚ)) (y_train y_test : List ℚ) (c : ℚ)
    (classifiers : List (Clf × String))
    (h : npUnique y_train = [c]) :
    default_multi_classification f1 x_train y_train x_test y_test classifiers
      = classifiers.map (fun cn => .multiClass cn.2
          (accuracy_score y_test (List.replicate x_test.length c))
          (f1 y_test (List.replicate x_test.length c) "macro")
          (f1 y_test (List.replicate x_test.length c) "micro"))
    ∧ default_binary_classification f1 x_train y_train x_test y_test
        classifiers
      = classifiers.map (fun cn => .binClass cn.2
          (accuracy_score y_test (List.replicate x_test.length c))
          (f1 y_test (List.replicate x_test.length c) "binary")) := by
  constructor
  · simp [default_multi_classification, h]
  · simp [default_binary_classification, h]

/-- C6 witness: a concrete classifier that would predict `99` everywhere is
ignored when the training labels are all `5`. -/
theorem C6_classification_constant_label_witness :
    npUnique [(5 : ℚ), 5] = [5] ∧
    default_multi_classification (fun _ _ _ => 0) [[1], [2]] [(5 : ℚ), 5]
        [[3], [4]] [5, 4]
        [(fun _ _ x_test => List.replicate x_test.length 99, "m")] =
      [.multiClass "m" (accuracy_score [5, 4] (List.replicate 2 (5 : ℚ)))
        ((fun _ _ _ => (0 : ℚ)) [5, 4] (List.replicate 2 (5 : ℚ)) "macro")
        ((fun _ _ _ => (0 : ℚ)) [5, 4] (List.replicate 2 (5 : ℚ)) "micro")] := by
  refine ⟨by decide, ?_⟩
  exact (C6_classification_constant_label (fun _ _ _ => 0) [[1], [2]]
    [[3], [4]] [(5 : ℚ), 5] [5, 4] 5
    [(fun _ _ x_test => List.replicate x_test.length 99, "m")] (by decide)).1

/-- C1 counterexample: a synthetic sample set containing a non-finite value
(`inf`, which is not NaN) is NOT skipped — the batch loop appends a result
record for it, because the loop only tests `np.isnan`. -/
theorem C1_counterexample :
    ([[PyFloat.inf]] : List (List PyFloat)).any
        (fun r => r.any (fun v => !v.isfinite)) = true
    ∧ mainLoop ⟨fun _ => some ([[PyFloat.val 0]], [[PyFloat.val 0]]),
          fun _ => some []⟩
        (fun _ _ _ _ => (0 : ℕ)) (fun _ _ _ => (0 : ℕ))
        [⟨"grid", 1, 2, [[PyFloat.inf]]⟩] =
      [⟨"grid", 1, 2, 0, 0⟩] := by
  exact ⟨rfl, rfl⟩

/-- C1 (amended): a synthetic sample set containing at least one NaN value is
skipped entirely by the batch loop — no evaluator call, no distance, no
appended record — and the loop continues with the remaining sample sets.
(The source tests `np.isnan` only, so non-NaN infinities are not skipped.) -/
theorem C1_nan_skip {Perf Dist : Type} (env : DataEnv)
    (eval : String → List (List PyFloat) → List (List PyFloat) →
      List ColInfo → Perf)
    (dist : List (List PyFloat) → List (List PyFloat) → List ColInfo → Dist)
    (f : SynFile) (fs : List SynFile) (h : anyNaN f.syn = true) :
    mainLoop env eval dist (f :: fs) = mainLoop env eval dist fs := by
  simp [mainLoop, h]

/-! ### Distance evaluator lemmas -/

theorem zipWith_sub_self (r : List ℚ) :
    List.zipWith (fun a b => a - b) r r = List.replicate r.length 0 := by
  induction r with
  | nil => rfl
  | cons x xs ih => simp [List.replicate_succ, ih]

theorem dCompRow_zero (maskd : List ℚ) (n : ℕ) :
    dCompRow maskd (List.replicate n 0) = 0 := by
  induction n generalizing maskd with
  | zero => simp [dCompRow]
  | succ k ih =>
    cases maskd with
    | nil => simp [dCompRow]
    | cons m ms =>
      simp only [dCompRow, List.replicate_succ, List.zipWith_cons_cons,
        List.sum_cons] at *
      simp [ih ms]

theorem cCompRow_zero (maskd : List ℚ) (std : List ℝ) (n : ℕ) :
    cCompRow maskd std (List.replicate n 0) = 0 := by
  induction n generalizing maskd std with
  | zero => simp [cCompRow]
  | succ k ih =>
    cases maskd with
    | nil => simp [cCompRow]
    | cons m ms =>
      cases std with
      | nil => simp [cCompRow]
      | cons s ss =>
        simp only [cCompRow, List.replicate_succ, List.zipWith_cons_cons,
          List.sum_cons] at *
        simp [ih ms ss]

theorem sqZipSum_nonneg (l : List ℚ) (std : List ℝ) :
    0 ≤ (List.zipWith (fun (x : ℚ) (s : ℝ) => (((x : ℝ)) / 2 / s) ^ 2)
      l std).sum := by
  induction l generalizing std with
  | nil => simp
  | cons x xs ih =>
    cases std with
    | nil => simp
    | cons s ss =>
      simp only [List.zipWith_cons_cons, List.sum_cons]
      exact add_nonneg (sq_nonneg _) (ih ss)

theorem cCompRow_nonneg (maskd : List ℚ) (std : List ℝ) (diff : List ℚ) :
    0 ≤ cCompRow maskd std diff :=
  sqZipSum_nonneg _ _

theorem rowTotal_nonneg (maskd : List ℚ) (std : List ℝ)
    (treal current : List ℚ) : 0 ≤ rowTotal maskd std treal current :=
  add_nonneg (cCompRow_nonneg _ _ _) (Nat.cast_nonneg _)

theorem rowTotal_self (maskd : List ℚ) (std : List ℝ) (r : List ℚ) :
    rowTotal maskd std r r = 0 := by
  unfold rowTotal
  rw [zipWith_sub_self, cCompRow_zero, dCompRow_zero]
  simp

theorem foldr_min_le {l : List ℝ} (a : ℝ) {x : ℝ} (hx : x ∈ l) :
    l.foldr min a ≤ x := by
  induction l with
  | nil => cases hx
  | cons y ys ih =>
    rcases List.mem_cons.mp hx with h | h
    · subst h; exact min_le_left _ _
    · exact le_trans (min_le_right _ _) (ih h)

theorem le_foldr_min {l : List ℝ} {a c : ℝ} (ha : c ≤ a)
    (hl : ∀ x ∈ l, c ≤ x) : c ≤ l.foldr min a := by
  induction l with
  | nil => exact ha
  | cons y ys ih =>
    exact le_min (hl y (List.mem_cons_self _ _))
      (ih (fun x hx => hl x (List.mem_cons_of_mem _ hx)))

theorem listMinR_eq_zero {l : List ℝ} (h0 : (0 : ℝ) ∈ l)
    (hl : ∀ x ∈ l, 0 ≤ x) : listMinR l = 0 := by
  refine le_antisymm (foldr_min_le _ h0) (le_foldr_min ?_ hl)
  cases l with
  | nil => cases h0
  | cons y ys => exact hl y (List.mem_cons_self _ _)

/-- C5: sampling the training set against itself gives distance exactly zero:
for each sampled row the discrete and continuous components both vanish at
its own exact match, so every nearest-neighbor distance — and the mean — is
zero, the minimum possible value. -/
theorem C5_distance_self (X : List (List ℚ)) (meta : List ColInfo)
    (sample : ℕ) (hpos : 0 < sample) (hlen : sample ≤ X.length) :
    compute_distance X X meta sample = some 0 := by
  have hX : X ≠ [] := by
    intro h
    rw [h] at hlen
    simp at hlen
    omega
  unfold compute_distance
  rw [if_pos ⟨hlen, hX⟩]
  dsimp only
  have hzero : ∀ i ∈ List.range sample,
      Real.sqrt (listMinR (X.map (fun treal =>
        rowTotal (mask_d meta) (stdPlusEps X) treal (X.getD i [])))) =
      (fun _ => (0 : ℝ)) i := by
    intro i hi
    have hilt : i < X.length := lt_of_lt_of_le (List.mem_range.mp hi) hlen
    have hmem : X.getD i [] ∈ X := by
      rw [List.getD_eq_getElem _ _ hilt]
      exact List.getElem_mem hilt
    rw [listMinR_eq_zero, Real.sqrt_zero]
    · exact List.mem_map.mpr ⟨X.getD i [], hmem, rowTotal_self _ _ _⟩
    · intro x hx
      obtain ⟨t, _, rfl⟩ := List.mem_map.mp hx
      exact rowTotal_nonneg _ _ _ _
  rw [List.map_congr_left hzero]
  simp only [meanR]
  rw [List.sum_eq_zero]
  · simp
  · intro x hx
    obtain ⟨i, _, rfl⟩ := List.mem_map.mp hx
    rfl

theorem mask_d_cons (c : ColInfo) (cs : List ColInfo) :
    mask_d (c :: cs) =
      (if c.type = ColType.categorical ∨ c.type = ColType.ordinal
        then (1 : ℚ) else 0) :: mask_d cs := rfl

theorem dCompRow_eq_filter (meta : List ColInfo) (diff : List ℚ) :
    dCompRow (mask_d meta) diff =
      ((meta.zip diff).filter (fun p =>
        decide ((p.1.type = ColType.categorical ∨ p.1.type = ColType.ordinal)
          ∧ 0 < p.2))).length := by
  induction meta generalizing diff with
  | nil => simp [dCompRow, mask_d]
  | cons c cs ih =>
    cases diff with
    | nil => simp [dCompRow, mask_d]
    | cons d ds =>
      rw [mask_d_cons]
      simp only [dCompRow, List.zipWith_cons_cons, List.sum_cons,
        List.zip_cons_cons, List.filter_cons]
      rw [show (List.zipWith (fun d m => if 0 < d * m then (1 : ℕ) else 0)
          ds (mask_d cs)).sum = dCompRow (mask_d cs) ds from rfl, ih ds]
      by_cases hc : c.type = ColType.categorical ∨ c.type = ColType.ordinal
      · by_cases hd : 0 < d
        · simp [hc, hd, Nat.add_comm]
        · simp [hc, hd]
      · simp [hc]

theorem cCompRow_eq_if (meta : List ColInfo) (std : List ℝ) (diff : List ℚ) :
    cCompRow (mask_d meta) std diff =
      (List.zipWith (fun (p : ColInfo × ℚ) (s : ℝ) =>
          if p.1.type = ColType.continuous then ((p.2 : ℝ) / (2 * s)) ^ 2
          else 0)
        (meta.zip diff) std).sum := by
  induction meta generalizing std diff with
  | nil => simp [cCompRow, mask_d]
  | cons c cs ih =>
    cases diff with
    | nil => simp [cCompRow, mask_d]
    | cons d ds =>
      cases std with
      | nil => simp [cCompRow, mask_d]
      | cons s ss =>
        rw [mask_d_cons]
        simp only [cCompRow, List.zipWith_cons_cons, List.sum_cons,
          List.zip_cons_cons]
        rw [show (List.zipWith (fun (x : ℚ) (s : ℝ) => (((x : ℝ)) / 2 / s) ^ 2)
            (List.zipWith (fun d m => d * (1 - m)) ds (mask_d cs)) ss).sum
            = cCompRow (mask_d cs) ss ds from rfl, ih ss ds]
        congr 1
        cases hc : c.type with
        | categorical => simp [hc]
        | ordinal => simp [hc]
        | continuous => simp [hc, div_div]

theorem sqrt_foldr_min (a : ℝ) (l : List ℝ) :
    Real.sqrt (l.foldr min a) = (l.map Real.sqrt).foldr min (Real.sqrt a) := by
  induction l with
  | nil => rfl
  | cons x xs ih =>
    simp only [List.foldr_cons, List.map_cons]
    rw [← ih]
    exact Monotone.map_min (fun u v huv => Real.sqrt_le_sqrt huv)

theorem sqrt_listMinR (l : List ℝ) :
    Real.sqrt (listMinR l) = listMinR (l.map Real.sqrt) := by
  unfold listMinR
  rw [sqrt_foldr_min]
  congr 1
  cases l with
  | nil => exact Real.sqrt_zero
  | cons x xs => rfl

/-- C4 (amended): the distance score is the mean over the first `sample`
synthetic rows (the call site passes 300; at least that many synthetic rows
must exist, or the row indexing raises) of the minimum over all real rows of
`sqrt(D + C)`, where `D` counts categorical/ordinal columns with
`real - synthetic > 0` and `C` sums, over continuous columns, the squared
difference normalized by `2 * (std + 1e-6)` with `std` the per-column
population standard deviation of the training data. -/
theorem C4_distance_formula (trainset syn : List (List ℚ))
    (meta : List ColInfo) (sample : ℕ)
    (hlen : sample ≤ syn.length) (hne : trainset ≠ [])
    (hw : ∀ r ∈ trainset, r.length = meta.length) :
    compute_distance trainset syn meta sample =
      some (distance_amended trainset syn meta sample) := by
  have hhead : (trainset.headD []).length = meta.length := by
    cases trainset with
    | nil => exact absurd rfl hne
    | cons r rs => exact hw r (List.mem_cons_self _ _)
  have hstd : stdPlusEps trainset =
      (List.range meta.length).map (fun j =>
        Real.sqrt ((varQ (matColumn trainset j) : ℚ) : ℝ) + 1 / 1000000) := by
    unfold stdPlusEps
    rw [hhead]
  unfold compute_distance distance_amended
  rw [if_pos ⟨hlen, hne⟩]
  dsimp only
  congr 1
  refine congrArg meanR (List.map_congr_left (fun i _ => ?_))
  rw [sqrt_listMinR, List.map_map]
  refine congrArg listMinR (List.map_congr_left (fun treal _ => ?_))
  simp only [Function.comp_apply]
  unfold rowTotal
  rw [hstd, add_comm, dCompRow_eq_filter, cCompRow_eq_if]

/-- C4 witness: a concrete one-column evaluation of the amended formula. -/
theorem C4_distance_formula_witness :
    compute_distance [[(0 : ℚ)], [2]] [[(1 : ℚ)]]
        [ColInfo.mk "x" ColType.continuous 0 [] 0 10] 1 =
      some (distance_amended [[(0 : ℚ)], [2]] [[(1 : ℚ)]]
        [ColInfo.mk "x" ColType.continuous 0 [] 0 10] 1) :=
  C4_distance_formula [[(0 : ℚ)], [2]] [[(1 : ℚ)]]
    [ColInfo.mk "x" ColType.continuous 0 [] 0 10] 1
    (by decide) (by decide) (by decide)

/-- C4 counterexample: on a one-column continuous dataset with training rows
`[[0], [2]]` (population std exactly 1) and one synthetic row `[1]`, the code
returns `1/2/(1 + 1e-6)` while the claimed formula — normalizing by the
plain per-column std — gives `1`: the code divides by `2 * (std + 1e-6)`,
not by `std`. -/
theorem C4_counterexample :
    compute_distance [[(0 : ℚ)], [2]] [[(1 : ℚ)]]
        [ColInfo.mk "x" ColType.continuous 0 [] 0 10] 1 ≠
      some (distance_claimed [[(0 : ℚ)], [2]] [[(1 : ℚ)]]
        [ColInfo.mk "x" ColType.continuous 0 [] 0 10] 1) := by
  have hvar : varQ (matColumn [[(0 : ℚ)], [2]] 0) = 1 := by
    norm_num [varQ, matColumn, meanQ]
  have hsq : Real.sqrt ((varQ (matColumn [[(0 : ℚ)], [2]] 0) : ℚ) : ℝ) = 1 := by
    rw [hvar, Rat.cast_one, Real.sqrt_one]
  have hL : compute_distance [[(0 : ℚ)], [2]] [[(1 : ℚ)]]
      [ColInfo.mk "x" ColType.continuous 0 [] 0 10] 1 =
      some ((1 : ℝ) / 2 / (1 + 1 / 1000000)) := by
    unfold compute_distance
    rw [if_pos ⟨by norm_num, by simp⟩]
    dsimp only
    have hstd : stdPlusEps [[(0 : ℚ)], [2]] = [1 + 1 / 1000000] := by
      unfold stdPlusEps
      simp only [List.headD_cons, List.length_cons, List.length_nil, zero_add]
      rw [show List.range 1 = [0] from rfl]
      simp only [List.map_cons, List.map_nil, hsq]
    rw [hstd, show mask_d [ColInfo.mk "x" ColType.continuous 0 [] 0 10] = [0]
      from rfl]
    rw [show List.range 1 = [0] from rfl]
    simp only [List.map_cons, List.map_nil]
    rw [show ([[(1 : ℚ)]].getD 0 []) = [1] from rfl]
    have hr1 : rowTotal [0] [1 + 1 / 1000000] [(0 : ℚ)] [1] =
        ((1 : ℝ) / 2 / (1 + 1 / 1000000)) ^ 2 := by
      unfold rowTotal cCompRow dCompRow
      norm_num [List.zipWith_cons_cons]
    have hr2 : rowTotal [0] [1 + 1 / 1000000] [(2 : ℚ)] [1] =
        ((1 : ℝ) / 2 / (1 + 1 / 1000000)) ^ 2 := by
      unfold rowTotal cCompRow dCompRow
      norm_num [List.zipWith_cons_cons]
    rw [hr1, hr2]
    rw [show listMinR [((1 : ℝ) / 2 / (1 + 1 / 1000000)) ^ 2,
        ((1 : ℝ) / 2 / (1 + 1 / 1000000)) ^ 2] =
        ((1 : ℝ) / 2 / (1 + 1 / 1000000)) ^ 2 from by simp [listMinR]]
    rw [Real.sqrt_sq (by positivity)]
    simp [meanR]
  have hR : distance_claimed [[(0 : ℚ)], [2]] [[(1 : ℚ)]]
      [ColInfo.mk "x" ColType.continuous 0 [] 0 10] 1 = 1 := by
    unfold distance_claimed
    simp only [List.length_cons, List.length_nil, zero_add]
    rw [show List.range 1 = [0] from rfl]
    simp only [List.map_cons, List.map_nil]
    rw [show ([[(1 : ℚ)]].getD 0 []) = [1] from rfl]
    simp only [List.zipWith_cons_cons, List.zipWith_nil_left,
      List.zipWith_nil_right, List.zip_cons_cons, List.zip_nil_left,
      List.zip_nil_right, List.filter_cons, List.filter_nil, hsq]
    norm_num [listMinR, meanR]
  rw [hL, hR]
  intro h
  rw [Option.some_inj] at h
  norm_num at h

/-- C5 witness: a two-row training set sampled against itself with
`sample_cap = 2`. -/
theorem C5_distance_self_witness :
    compute_distance [[(1 : ℚ), 2], [3, 4]] [[(1 : ℚ), 2], [3, 4]]
      [ColInfo.mk "a" ColType.categorical 2 [] 0 0,
       ColInfo.mk "b" ColType.continuous 0 [] 0 10] 2 = some 0 :=
  C5_distance_self [[(1 : ℚ), 2], [3, 4]]
    [ColInfo.mk "a" ColType.categorical 2 [] 0 0,
     ColInfo.mk "b" ColType.continuous 0 [] 0 10] 2 (by decide) (by decide)

/-- C1 witness: a file whose sample matrix contains a NaN produces no record. -/
theorem C1_nan_skip_witness :
    anyNaN [[PyFloat.val 3, PyFloat.nan]] = true
    ∧ mainLoop ⟨fun _ => some ([[PyFloat.val 0]], [[PyFloat.val 0]]),
          fun _ => some []⟩
        (fun _ _ _ _ => (0 : ℕ)) (fun _ _ _ => (0 : ℕ))
        [⟨"grid", 1, 2, [[PyFloat.val 3, PyFloat.nan]]⟩] = [] :=
  ⟨rfl, C1_nan_skip ⟨fun _ => some ([[PyFloat.val 0]], [[PyFloat.val 0]]),
      fun _ => some []⟩
    (fun _ _ _ _ => (0 : ℕ)) (fun _ _ _ => (0 : ℕ))
    ⟨"grid", 1, 2, [[PyFloat.val 3, PyFloat.nan]]⟩ [] rfl⟩

/-- C9 witness: one row whose lookup fails under the reference network and
one whose lookup succeeds under the refit network. -/
theorem C9_bayesian_floor_witness :
    default_bayesian_likelihood id
      ⟨fun _ => 1, fun _ _ => none, fun _ _ _ => some (1 / 2)⟩
      "asia" [[0]] [[1]] [ColInfo.mk "c" ColType.categorical 2 ["a", "b"] 0 0] =
      .ok [.likelihood "default"
        (1 / 100000000 + 1 / 100000000) (1 / 2 + 1 / 100000000)] := by
  rw [C9_bayesian_floor id
    ⟨fun _ => 1, fun _ _ => none, fun _ _ _ => some (1 / 2)⟩
    "asia" [[0]] [[1]] [ColInfo.mk "c" ColType.categorical 2 ["a", "b"] 0 0]
    [["a"]] [["b"]] rfl (by rfl) (by rfl)]
  norm_num [meanQ]

end SDGym
